import Mathlib

/-!
Shallow embedding of the ScholarSync frontend page component and proofs about
its observable behaviour.

The repository contains several revisions of the same single-page component.
Two are modelled here:

* namespace `PageTsx` embeds src/frontend/src/app/page.tsx (sequential
  per-file uploads, two tabs, quiz/flashcards rendered inside the chat);
* namespace `Part1` embeds src/unnamed/part_001 (batch multipart upload with
  a 100MB client-side limit, four tabs, separate quiz/study state).
  src/unnamed/part_000 is line-for-line identical to part_001 for every
  function modelled here except where a doc comment says otherwise; the doc
  comments cite both files.

Handlers are embedded as pure functions from the component state and the
outcome of the awaited fetch calls to the final component state together with
the list of HTTP requests the handler issued.  The environment (the backend)
is a parameter: each `FetchResult`/`AbortableResult` argument is the outcome
of one fetch call in source order.  React state updates are modelled as
sequential record updates; where a JS closure reads a stale state value the
embedding passes that captured value explicitly and the doc comment says so.
-/

namespace ScholarSync

/-- A backend-indexed document; the frontend keeps only the filename
(data model of all revisions). -/
structure Material where
  filename : String
deriving DecidableEq

/-- Metadata of one file picked in the upload form: its name and byte size
(the JS File object fields the component reads). -/
structure FileMeta where
  name : String
  size : Nat
deriving DecidableEq

/-- Chat roles, from the chatHistory state of all revisions. -/
inductive Role
  | user
  | assistant
deriving DecidableEq

/-- A retrieval source attached to an assistant answer (page.tsx only). -/
structure SourceRef where
  filename : String
  snippet : String
deriving DecidableEq

/-- A quiz question as consumed by page.tsx (correct_answer is a string
compared against the clicked option). -/
structure QuizQuestion where
  question : String
  options : List String
  correct_answer : String
  explanation : String
deriving DecidableEq

/-- A flashcard front/back pair. -/
structure Flashcard where
  front : String
  back : String
deriving DecidableEq

/-- One chatHistory entry.  Optional JS fields are modelled with empty-list
or false defaults, which the rendering code treats the same as absence. -/
structure ChatMessage where
  role : Role
  content : String
  sources : List SourceRef := []
  isAnalysis : Bool := false
  quiz : List QuizQuestion := []
  flashcards : List Flashcard := []
  learningPath : List String := []
  selectedAnswers : List (Nat × String) := []
deriving DecidableEq

/-- A concept returned by POST /concepts. -/
structure Concept where
  term : String
  definition : String
  importance : Nat
deriving DecidableEq

/-- An edge of the concept graph returned by POST /concepts. -/
structure ConceptLink where
  source : String
  target : String
  relationship : String
deriving DecidableEq

/-- The backendStatus state of all revisions. -/
inductive BackendStatus
  | checking
  | online
  | offline
deriving DecidableEq

/-- One outgoing HTTP request, identified by method/path and the payload the
component puts in it. -/
inductive Request
  | healthGet
  | materialsGet
  | conceptsPost
  | uploadPost (filenames : List String)
  | queryPost (prompt : String)
  | analyzePost
  | quizPost (count : Option Nat)
  | flashcardsPost (count : Option Nat)
  | studyPost
  | materialDelete (filename : String)
  | materialsDeleteAll
deriving DecidableEq

/-- Outcome of a fetch call that carries no abort signal: either the server
responded (any status, with the JSON body the component will read), or the
fetch promise rejected with an error whose message is `msg`. -/
inductive FetchResult (β : Type)
  | response (status : Nat) (body : β)
  | netError (msg : String)
deriving DecidableEq

/-- Outcome of a fetch call guarded by an AbortController timer: as
`FetchResult`, plus rejection with an AbortError when the timer fires. -/
inductive AbortableResult (β : Type)
  | response (status : Nat) (body : β)
  | netError (msg : String)
  | aborted
deriving DecidableEq

/-- The res.ok predicate of the fetch API: status in [200, 300). -/
def respOk (status : Nat) : Bool := decide (200 ≤ status ∧ status < 300)

/-- JS `m || fallback` on strings: the empty string is falsy. -/
def jsStr (m fallback : String) : String := if m = "" then fallback else m

/-- JS `o || fallback` where `o` is a possibly-undefined string field. -/
def jsOr (o : Option String) (fallback : String) : String :=
  match o with
  | some m => jsStr m fallback
  | none => fallback

/-- JS String.prototype.trim as an executable function: drop leading and
trailing whitespace from the character list. -/
def jsTrim (s : String) : String :=
  String.mk (((s.data.dropWhile Char.isWhitespace).reverse.dropWhile
    Char.isWhitespace).reverse)

/-- A bare user transcript entry. -/
def mkUser (content : String) : ChatMessage := { role := Role.user, content := content }

/-- A bare assistant transcript entry. -/
def mkAssistant0 (content : String) : ChatMessage :=
  { role := Role.assistant, content := content }

/-- JSON body of a non-2xx response: the optional `detail` field the error
paths read. -/
structure ErrorBody where
  detail : Option String
deriving DecidableEq

/-- JSON body of a successful POST /concepts (`data.concepts || []` and
`data.links || []` are modelled as the lists directly). -/
structure ConceptsResponse where
  concepts : List Concept
  links : List ConceptLink
deriving DecidableEq

/-- JSON body of a POST /query response. -/
structure QueryResponse where
  answer : String
  sources : List SourceRef := []
  detail : Option String := none
deriving DecidableEq

/-- JSON body of a POST /analyze response. -/
structure AnalyzeResponse where
  analysis : String
  learning_path : List String := []
  detail : Option String := none
deriving DecidableEq

/-- JSON body of a POST /quiz response as read by page.tsx. -/
structure QuizResponse where
  questions : List QuizQuestion := []
  detail : Option String := none
deriving DecidableEq

/-- JSON body of a POST /flashcards or POST /study response. -/
structure FlashcardsResponse where
  flashcards : List Flashcard := []
  detail : Option String := none
deriving DecidableEq

/-- Total byte size of a selection, the accumulator of the forEach loop in
the batch handleUpload (src/unnamed/part_000 lines 194-198, part_001
lines 193-199). -/
def totalSize (files : List FileMeta) : Nat := (files.map FileMeta.size).sum

namespace PageTsx

/-- The activeTab state of page.tsx (line 30): research or analysis. -/
inductive Tab
  | research
  | analysis
deriving DecidableEq

/-- The component state of src/frontend/src/app/page.tsx, one field per
useState hook (lines 20-48; sessionId is an opaque constant the handlers
only forward as a header and is omitted). -/
structure State where
  files : List FileMeta
  uploading : Bool
  query : String
  answer : String
  loading : Bool
  conceptsLoading : Bool
  materials : List Material
  concepts : List Concept
  conceptLinks : List ConceptLink
  showGraph : Bool
  activeTab : Tab
  error : String
  chatHistory : List ChatMessage
  isAnalysisMode : Bool
  quizLoading : Bool
  flashcardsLoading : Bool
  isDark : Bool
  itemCount : Nat
  backendStatus : BackendStatus
  showSidebar : Bool
deriving DecidableEq

/-- Disabled condition of the Sync (upload) button, page.tsx line 510. -/
def uploadButtonDisabled (s : State) : Bool := s.files.isEmpty || s.uploading

/-- Disabled condition of the Ask (query submit) button, page.tsx
line 1002 (`!query || loading`). -/
def queryButtonDisabled (s : State) : Bool := s.query == "" || s.loading

/-- Disabled condition of the Analyze dock button, page.tsx line 1031. -/
def analyzeButtonDisabled (s : State) : Bool := s.materials.isEmpty || s.loading

/-- Disabled condition of the Quiz dock button, page.tsx line 1054. -/
def quizButtonDisabled (s : State) : Bool := s.materials.isEmpty || s.quizLoading

/-- Disabled condition of the Study (flashcards) dock button, page.tsx
line 1074. -/
def flashcardsButtonDisabled (s : State) : Bool :=
  s.materials.isEmpty || s.flashcardsLoading

/-- checkBackend, page.tsx lines 64-101: a 2xx response sets online, any
other response sets offline, and the catch branch (network error or
AbortError from the 45s timer) sets offline.  Only the resulting
backendStatus is observable; the function logs but sets no error. -/
def checkBackend (res : AbortableResult Unit) : BackendStatus :=
  match res with
  | .response st _ => if respOk st then BackendStatus.online else BackendStatus.offline
  | .netError _ => BackendStatus.offline
  | .aborted => BackendStatus.offline

/-- fetchMaterials, page.tsx lines 113-128: GET /materials; on 2xx replaces
the materials list, otherwise (including the catch branch) changes
nothing. -/
def fetchMaterials (s : State) (res : FetchResult (List Material)) :
    State × List Request :=
  match res with
  | .response st body =>
      (if respOk st then { s with materials := body } else s, [Request.materialsGet])
  | .netError _ => (s, [Request.materialsGet])

/-- fetchConcepts, page.tsx lines 130-151.  The guard reads the `materials`
value captured by the closure at the render that created this callback,
which callers pass as `materialsSeen` (it can differ from the current
`s.materials` when fetchConcepts is invoked right after another state
update, as deleteMaterial and handleUpload do). -/
def fetchConcepts (s : State) (materialsSeen : List Material)
    (res : FetchResult ConceptsResponse) : State × List Request :=
  if materialsSeen.isEmpty then (s, [])
  else
    match res with
    | .response st body =>
        if respOk st then
          ({ s with
              concepts := body.concepts
              conceptLinks := body.links
              conceptsLoading := false }, [Request.conceptsPost])
        else ({ s with conceptsLoading := false }, [Request.conceptsPost])
    | .netError _ => ({ s with conceptsLoading := false }, [Request.conceptsPost])

/-- State updates of handleUpload before its first await, page.tsx
lines 157-158. -/
def handleUploadPre (s : State) : State := { s with uploading := true, error := "" }

/-- The per-file upload loop of handleUpload, page.tsx lines 161-178: one
POST /upload per file, in order; a non-2xx response throws
`detail || "Upload failed for " ++ name` and a rejected fetch propagates its
own message, so the loop stops at the first failure.  `results i` is the
outcome of the i-th issued request; the result pairs the issued requests
with the thrown message, if any. -/
def uploadLoop (results : Nat → FetchResult ErrorBody) :
    Nat → List FileMeta → List Request × Option String
  | _, [] => ([], none)
  | i, f :: fs =>
    match results i with
    | .response st body =>
        if respOk st then
          let rest := uploadLoop results (i + 1) fs
          (Request.uploadPost [f.name] :: rest.1, rest.2)
        else
          ([Request.uploadPost [f.name]],
           some (jsOr body.detail ("Upload failed for " ++ f.name)))
    | .netError msg => ([Request.uploadPost [f.name]], some msg)

/-- handleUpload, page.tsx lines 153-189: guard on an empty selection, then
the sequential per-file loop; on success the selection is cleared and
fetchMaterials / fetchConcepts are invoked (fetchConcepts reads the
materials captured before the upload); on the first failure the catch
branch wraps the thrown message in a connection-error banner.  The success
alert is a UI side effect with no state. -/
def handleUpload (s : State) (results : Nat → FetchResult ErrorBody)
    (matRes : FetchResult (List Material)) (conRes : FetchResult ConceptsResponse) :
    State × List Request :=
  if s.files.isEmpty then (s, [])
  else
    let s1 := handleUploadPre s
    let run := uploadLoop results 0 s1.files
    match run.2 with
    | some m =>
        ({ s1 with
            uploading := false
            error := "Connection Error: " ++ jsStr m "Could not reach backend" ++
              ". If you just pushed, the server might still be waking up (can take 60s)." },
         run.1)
    | none =>
        let s2 := { s1 with files := [] }
        let r1 := fetchMaterials s2 matRes
        let r2 := fetchConcepts r1.1 s.materials conRes
        ({ r2.1 with uploading := false }, run.1 ++ r1.2 ++ r2.2)

/-- State updates of handleQuery between its guard and its await, page.tsx
lines 196-202: clear the input, set the query loading flag, clear the
error, leave analysis mode, and append one user entry. -/
def handleQueryPre (s : State) (searchTerms : String) : State :=
  { s with
      query := ""
      loading := true
      error := ""
      isAnalysisMode := false
      chatHistory := s.chatHistory ++ [mkUser searchTerms] }

/-- handleQuery, page.tsx lines 191-231.  `overrideQuery` is the second
parameter used by the concept-node onClick (line 894) and the connections
button (line 960); the effective query is `overrideQuery || query` and the
only guard is `!searchTerms` - there is no loading check in this
revision. -/
def handleQuery (s : State) (overrideQuery : Option String)
    (res : FetchResult QueryResponse) : State × List Request :=
  let searchTerms := jsOr overrideQuery s.query
  if searchTerms == "" then (s, [])
  else
    let s1 := handleQueryPre s searchTerms
    match res with
    | .response st body =>
        if respOk st then
          ({ s1 with
              chatHistory := s1.chatHistory ++
                [{ role := Role.assistant, content := body.answer,
                   sources := body.sources }]
              loading := false }, [Request.queryPost searchTerms])
        else
          ({ s1 with
              error := jsOr body.detail "Query failed"
              loading := false },
           [Request.queryPost searchTerms])
    | .netError _ =>
        ({ s1 with
            error := "Connection Error: Could not reach backend. Please check if the server is running and CORS is configured."
            loading := false }, [Request.queryPost searchTerms])

/-- State updates of handleAnalyze between its guard and its await, page.tsx
lines 235-242: switch to the research tab, set the shared `loading` flag
(the same flag handleQuery uses), clear the error, enter analysis mode, and
append one user entry. -/
def handleAnalyzePre (s : State) : State :=
  { s with
      activeTab := Tab.research
      loading := true
      error := ""
      isAnalysisMode := true
      chatHistory := s.chatHistory ++ [mkUser "Analyze connections across all my materials."] }

/-- handleAnalyze, page.tsx lines 233-272. -/
def handleAnalyze (s : State) (res : FetchResult AnalyzeResponse) :
    State × List Request :=
  if s.materials.isEmpty then (s, [])
  else
    let s1 := handleAnalyzePre s
    match res with
    | .response st body =>
        if respOk st then
          ({ s1 with
              chatHistory := s1.chatHistory ++
                [{ role := Role.assistant, content := body.analysis, isAnalysis := true,
                   learningPath := body.learning_path }]
              loading := false }, [Request.analyzePost])
        else
          let errorMessage := jsOr body.detail "Analysis failed"
          ({ s1 with
              error := errorMessage
              chatHistory := s1.chatHistory ++
                [mkAssistant0 ("Sorry, I couldn\x27t perform the analysis: " ++ errorMessage)]
              loading := false }, [Request.analyzePost])
    | .netError _ =>
        ({ s1 with
            error := "Failed to connect to backend"
            loading := false },
         [Request.analyzePost])

/-- State updates of handleGenerateQuiz between its guard and its await,
page.tsx lines 276-281. -/
def handleGenerateQuizPre (s : State) : State :=
  { s with
      activeTab := Tab.research
      quizLoading := true
      error := ""
      chatHistory := s.chatHistory ++ [mkUser "Generate a practice quiz for me."] }

/-- handleGenerateQuiz, page.tsx lines 274-312. -/
def handleGenerateQuiz (s : State) (res : FetchResult QuizResponse) :
    State × List Request :=
  if s.materials.isEmpty then (s, [])
  else
    let s1 := handleGenerateQuizPre s
    match res with
    | .response st body =>
        if respOk st then
          ({ s1 with
              chatHistory := s1.chatHistory ++
                [{ role := Role.assistant,
                   content := "I\x27ve generated a practice quiz based on your materials. Good luck!",
                   quiz := body.questions }]
              quizLoading := false }, [Request.quizPost (some s.itemCount)])
        else
          let errorMessage := jsOr body.detail "Quiz generation failed"
          ({ s1 with
              error := errorMessage
              chatHistory := s1.chatHistory ++
                [mkAssistant0 ("Sorry, I couldn\x27t generate the quiz: " ++ errorMessage)]
              quizLoading := false }, [Request.quizPost (some s.itemCount)])
    | .netError _ =>
        ({ s1 with
            error := "Failed to connect to backend"
            quizLoading := false },
         [Request.quizPost (some s.itemCount)])

/-- State updates of handleGenerateFlashcards between its guard and its
await, page.tsx lines 316-321. -/
def handleGenerateFlashcardsPre (s : State) : State :=
  { s with
      activeTab := Tab.research
      flashcardsLoading := true
      error := ""
      chatHistory := s.chatHistory ++ [mkUser "Generate study flashcards."] }

/-- handleGenerateFlashcards, page.tsx lines 314-350 (the non-2xx branch
sets only the error; it appends no chat entry). -/
def handleGenerateFlashcards (s : State) (res : FetchResult FlashcardsResponse) :
    State × List Request :=
  if s.materials.isEmpty then (s, [])
  else
    let s1 := handleGenerateFlashcardsPre s
    match res with
    | .response st body =>
        if respOk st then
          ({ s1 with
              chatHistory := s1.chatHistory ++
                [{ role := Role.assistant,
                   content := "I\x27ve created a set of flashcards for you. Click on them to reveal the answer!",
                   flashcards := body.flashcards }]
              flashcardsLoading := false }, [Request.flashcardsPost (some s.itemCount)])
        else
          ({ s1 with
              error := jsOr body.detail "Flashcard generation failed"
              flashcardsLoading := false }, [Request.flashcardsPost (some s.itemCount)])
    | .netError _ =>
        ({ s1 with
            error := "Failed to connect to backend"
            flashcardsLoading := false },
         [Request.flashcardsPost (some s.itemCount)])

/-- deleteMaterial, page.tsx lines 352-368: DELETE the material, and on a
2xx response invoke fetchMaterials() and fetchConcepts() - both without
awaiting, so fetchConcepts reads the materials list captured before the
re-fetch (`s.materials`).  A non-2xx response does nothing; the catch
branch sets an error. -/
def deleteMaterial (s : State) (filename : String) (res : FetchResult ErrorBody)
    (matRes : FetchResult (List Material)) (conRes : FetchResult ConceptsResponse) :
    State × List Request :=
  match res with
  | .netError _ =>
      ({ s with error := "Failed to delete material" }, [Request.materialDelete filename])
  | .response st _ =>
      if respOk st then
        let r1 := fetchMaterials s matRes
        let r2 := fetchConcepts r1.1 s.materials conRes
        (r2.1, Request.materialDelete filename :: r1.2 ++ r2.2)
      else (s, [Request.materialDelete filename])

/-- clearMaterials, page.tsx lines 370-385: DELETE /materials without
checking res.ok, then reset materials, concepts, and the whole chat
transcript (conceptLinks is left as is in this revision); the catch branch
only sets an error. -/
def clearMaterials (s : State) (res : FetchResult ErrorBody) : State × List Request :=
  match res with
  | .netError _ =>
      ({ s with error := "Failed to clear materials" }, [Request.materialsDeleteAll])
  | .response _ _ =>
      ({ s with
          materials := []
          concepts := []
          chatHistory := [] },
       [Request.materialsDeleteAll])

/-- The selectedAnswers object assignment `selectedAnswers[qi] = opt` of the
quiz option onClick, as an association-list update. -/
def setSelected (entries : List (Nat × String)) (qi : Nat) (opt : String) :
    List (Nat × String) :=
  entries.filter (fun p => p.1 != qi) ++ [(qi, opt)]

/-- The quiz option onClick, page.tsx lines 750-757: copy the history array,
mutate entry `idx` in place by recording the selected option for question
`qi`, and store the result back. -/
def quizOptionClick (history : List ChatMessage) (idx qi : Nat) (opt : String) :
    List ChatMessage :=
  match history[idx]? with
  | none => history
  | some msg =>
      history.set idx { msg with selectedAnswers := setSelected msg.selectedAnswers qi opt }

/-- getPos, the link-layer coordinate helper, page.tsx lines 849-859. -/
def getPos (index : Nat) : Nat × Nat :=
  let nodesPerRow := 2
  let row := index / nodesPerRow
  let col := index % nodesPerRow
  let xSpacing := 220
  let ySpacing := 160
  (100 + col * xSpacing + (if row % 2 == 0 then 0 else 20), 80 + row * ySpacing)

/-- The coordinate computed inline for concept node i, page.tsx
lines 881-887 (the same arithmetic as getPos, duplicated in the source). -/
def nodePos (i : Nat) : Nat × Nat :=
  let nodesPerRow := 2
  let row := i / nodesPerRow
  let col := i % nodesPerRow
  let xSpacing := 220
  let ySpacing := 160
  (100 + col * xSpacing + (if row % 2 == 0 then 0 else 20), 80 + row * ySpacing)

/-- The link-rendering computation, page.tsx lines 842-874: find the indices
of the source and target terms; if either findIndex returns -1 render
nothing, otherwise render a line between the two getPos coordinates. -/
def renderLink (concepts : List Concept) (link : ConceptLink) :
    Option ((Nat × Nat) × (Nat × Nat)) :=
  match concepts.findIdx? (fun c => c.term == link.source),
        concepts.findIdx? (fun c => c.term == link.target) with
  | some sourceIdx, some targetIdx => some (getPos sourceIdx, getPos targetIdx)
  | _, _ => none

end PageTsx

namespace Part1

/-- The backend origin of src/unnamed/part_001 (line 12), a constant in this
revision. -/
def backendUrl : String := "https://scholarsync-jh4j.onrender.com"

/-- The activeTab state of part_001 (lines 44-45): four tabs. -/
inductive Tab
  | research
  | analysis
  | quiz
  | study
deriving DecidableEq

/-- A quiz question as consumed by part_001 (correct_answer is the index of
the right option, compared against the clicked index in handleAnswer). -/
structure QuizQuestion where
  question : String
  options : List String
  correct_answer : Nat
  explanation : String
deriving DecidableEq

/-- JSON body of a POST /quiz response as read by part_001 (only
`data.questions || []` is read, and only on a 2xx response). -/
structure QuizResponse where
  questions : List QuizQuestion := []
deriving DecidableEq

/-- The component state of src/unnamed/part_001, one field per useState hook
(lines 16-59; sessionId is an opaque constant the handlers only forward as a
header and is omitted).  src/unnamed/part_000 has the same state minus the
quiz/study block. -/
structure State where
  files : List FileMeta
  query : String
  materials : List Material
  chatHistory : List ChatMessage
  error : String
  uploading : Bool
  loading : Bool
  concepts : List Concept
  conceptLinks : List ConceptLink
  backendStatus : BackendStatus
  isDark : Bool
  activeTab : Tab
  quizQuestions : List QuizQuestion
  currentQuestionIdx : Nat
  quizScore : Nat
  quizStarted : Bool
  quizFinished : Bool
  quizLoading : Bool
  flashcards : List Flashcard
  studyLoading : Bool
  currentCardIdx : Nat
  isFlipped : Bool
deriving DecidableEq

/-- Disabled condition of the Initialize Quiz button, part_001 line 604
(`quizLoading || materials.length === 0`). -/
def quizInitDisabled (s : State) : Bool := s.quizLoading || s.materials.isEmpty

/-- Disabled condition of the Sync (upload) button, part_001 line 457 and
part_000 line 354 (`files.length === 0 || uploading`). -/
def uploadButtonDisabled (s : State) : Bool := s.files.isEmpty || s.uploading

/-- checkBackend, part_001 lines 62-89: a 2xx response sets online and
clears the error; a non-2xx response, an AbortError from the 90s timer, or
any other rejection sets offline with the corresponding message.  The
result is the final (backendStatus, error) pair; the transient `checking`
value set at entry is always overwritten before the run ends.
src/unnamed/part_000 lines 57-89 has the same structure with different
messages and a 60s timer. -/
def checkBackend (res : AbortableResult Unit) : BackendStatus × String :=
  match res with
  | .response st _ =>
      if respOk st then (BackendStatus.online, "")
      else (BackendStatus.offline, "Engine is warming up. Please wait 30-60 seconds...")
  | .aborted =>
      (BackendStatus.offline, "Engine wake-up timed out. Click \x27Retry\x27 to try again.")
  | .netError _ => (BackendStatus.offline, "System Offline: Connecting to engine...")

/-- Application of checkBackend to the component state (the setBackendStatus
and setError calls it performs), plus the GET / request it issues. -/
def runCheckBackend (s : State) (res : AbortableResult Unit) : State × List Request :=
  ({ s with
      backendStatus := (checkBackend res).1
      error := (checkBackend res).2 },
   [Request.healthGet])

/-- fetchMaterials, part_001 lines 101-110 (identical in part_000
lines 91-100): GET /materials; on 2xx replaces the materials list,
otherwise changes nothing. -/
def fetchMaterials (s : State) (res : FetchResult (List Material)) :
    State × List Request :=
  match res with
  | .response st body =>
      (if respOk st then { s with materials := body } else s, [Request.materialsGet])
  | .netError _ => (s, [Request.materialsGet])

/-- fetchConcepts, part_001 lines 112-127 (identical in part_000
lines 102-117): skip entirely unless forced or the concepts list is empty;
otherwise POST /concepts and on 2xx replace concepts and links. -/
def fetchConcepts (s : State) (force : Bool) (res : FetchResult ConceptsResponse) :
    State × List Request :=
  if !force && !s.concepts.isEmpty then (s, [])
  else
    match res with
    | .response st body =>
        if respOk st then
          ({ s with
              concepts := body.concepts
              conceptLinks := body.links }, [Request.conceptsPost])
        else (s, [Request.conceptsPost])
    | .netError _ => (s, [Request.conceptsPost])

/-- deleteMaterial, part_001 lines 129-156 (identical in part_000
lines 119-146): DELETE the material; on 2xx remove it from the local list,
and if nothing remains reset concepts and links locally, otherwise force a
/concepts refresh; on a non-2xx response or a rejection set an error. -/
def deleteMaterial (s : State) (filename : String) (res : FetchResult ErrorBody)
    (conRes : FetchResult ConceptsResponse) : State × List Request :=
  match res with
  | .netError _ =>
      ({ s with error := "Failed to delete material" }, [Request.materialDelete filename])
  | .response st body =>
      if respOk st then
        let updated := s.materials.filter (fun m => m.filename != filename)
        if updated.isEmpty then
          ({ s with
              materials := updated
              concepts := []
              conceptLinks := [] }, [Request.materialDelete filename])
        else
          let r := fetchConcepts { s with materials := updated } true conRes
          (r.1, Request.materialDelete filename :: r.2)
      else
        ({ s with error := jsOr body.detail "Failed to delete material" },
         [Request.materialDelete filename])

/-- clearMaterials, part_001 lines 158-176 (identical in part_000
lines 148-166): DELETE /materials; on 2xx reset materials, concepts, and
links - the chat transcript is untouched in this revision. -/
def clearMaterials (s : State) (res : FetchResult ErrorBody) : State × List Request :=
  match res with
  | .netError _ =>
      ({ s with error := "Failed to clear library" }, [Request.materialsDeleteAll])
  | .response st body =>
      if respOk st then
        ({ s with
            materials := []
            concepts := []
            conceptLinks := [] }, [Request.materialsDeleteAll])
      else
        ({ s with error := jsOr body.detail "Failed to clear library" },
         [Request.materialsDeleteAll])

/-- handleUpload, part_001 lines 186-224 (part_000 lines 185-226 is the
same except the post-success re-fetch runs inside a 1s setTimeout): guard
on an empty selection; build one multipart body with every selected file
and their total size; throw before any fetch when the total exceeds the
100MB limit; otherwise issue a single POST /upload, and on 2xx clear the
selection and re-fetch materials and concepts. -/
def handleUpload (s : State) (uploadRes : FetchResult ErrorBody)
    (matRes : FetchResult (List Material)) (conRes : FetchResult ConceptsResponse) :
    State × List Request :=
  if s.files.isEmpty then (s, [])
  else
    let s1 := { s with uploading := true, error := "" }
    if totalSize s1.files > 100 * 1024 * 1024 then
      ({ s1 with
          error := "Total file size exceeds 100MB limit"
          uploading := false }, [])
    else
      match uploadRes with
      | .netError msg =>
          ({ s1 with
              error := jsStr msg "Upload failed"
              uploading := false },
           [Request.uploadPost (s1.files.map FileMeta.name)])
      | .response st body =>
          if respOk st then
            let s2 := { s1 with files := [] }
            let r1 := fetchMaterials s2 matRes
            let r2 := fetchConcepts r1.1 true conRes
            ({ r2.1 with uploading := false },
             Request.uploadPost (s1.files.map FileMeta.name) :: r1.2 ++ r2.2)
          else
            ({ s1 with
                error := jsOr body.detail "Upload failed"
                uploading := false },
             [Request.uploadPost (s1.files.map FileMeta.name)])

/-- handleQuery, part_001 lines 226-277 (part_000 lines 228-269 is the same
minus the 120s abort timer, with a slightly different catch message): guard
`!query.trim() || loading`, then clear the input, append one user entry,
set loading, and POST /query; a 2xx response appends the answer, a non-2xx
response appends an error entry, and a rejection appends a system-error
entry and re-runs checkBackend. -/
def handleQuery (s : State) (res : AbortableResult QueryResponse)
    (healthRes : AbortableResult Unit) : State × List Request :=
  if jsTrim s.query == "" || s.loading then (s, [])
  else
    let currentQuery := s.query
    let s1 := { s with
      query := ""
      chatHistory := s.chatHistory ++ [mkUser currentQuery]
      loading := true }
    match res with
    | .response st body =>
        if respOk st then
          ({ s1 with
              chatHistory := s1.chatHistory ++ [mkAssistant0 body.answer]
              loading := false }, [Request.queryPost currentQuery])
        else
          ({ s1 with
              chatHistory := s1.chatHistory ++
                [mkAssistant0 ("‚ö†Ô∏è **Error:** " ++
                  jsOr body.detail "The server encountered an error.")]
              loading := false }, [Request.queryPost currentQuery])
    | .aborted =>
        let s2 := { s1 with
          chatHistory := s1.chatHistory ++
            [mkAssistant0 "‚è≥ **Query Timeout:** The engine is taking too long to answer. It might be waking up or processing a large amount of data."] }
        let r := runCheckBackend s2 healthRes
        ({ r.1 with loading := false }, Request.queryPost currentQuery :: r.2)
    | .netError _ =>
        let s2 := { s1 with
          chatHistory := s1.chatHistory ++
            [mkAssistant0 ("‚ùå **System Error:** Failed to connect to engine at `" ++
              backendUrl ++ "`.")] }
        let r := runCheckBackend s2 healthRes
        ({ r.1 with loading := false }, Request.queryPost currentQuery :: r.2)

/-- handleAnalyze, part_001 lines 279-336 (part_000 lines 271-309 has the
same empty-materials guard, no loading guard, no abort timer, and appends
its errors to the chat instead): guard on an empty library with an error
message and on a run already in flight; then set loading, clear the error,
switch to the research tab, and POST /analyze.  A 2xx response appends the
analysis entry and forces a /concepts refresh; 504/429 and other non-2xx
responses set an error; the catch branch sets an error and re-runs
checkBackend (whose own setError lands last). -/
def handleAnalyze (s : State) (res : AbortableResult AnalyzeResponse)
    (conRes : FetchResult ConceptsResponse) (healthRes : AbortableResult Unit) :
    State × List Request :=
  if s.materials.isEmpty then
    ({ s with error := "Please upload materials to analyze." }, [])
  else if s.loading then (s, [])
  else
    let s1 := { s with
      loading := true
      error := ""
      activeTab := Tab.research }
    match res with
    | .response st body =>
        if respOk st then
          let s2 := { s1 with
            chatHistory := s1.chatHistory ++
              [{ role := Role.assistant, content := body.analysis,
                 learningPath := body.learning_path, isAnalysis := true }] }
          let r := fetchConcepts s2 true conRes
          ({ r.1 with loading := false }, Request.analyzePost :: r.2)
        else if st == 504 || st == 429 then
          ({ s1 with
              error := "Analysis engine is warming up. Please wait 10 seconds and try again."
              loading := false }, [Request.analyzePost])
        else
          ({ s1 with
              error := jsOr body.detail "Analysis failed."
              loading := false }, [Request.analyzePost])
    | .aborted =>
        let s2 := { s1 with
          error := "Analysis timed out. Try analyzing fewer documents (e.g., 2-3) to stay within limits." }
        let r := runCheckBackend s2 healthRes
        ({ r.1 with loading := false }, Request.analyzePost :: r.2)
    | .netError _ =>
        let s2 := { s1 with error := "Connection lost. Please check if the backend is live." }
        let r := runCheckBackend s2 healthRes
        ({ r.1 with loading := false }, Request.analyzePost :: r.2)

/-- handleStartQuiz, part_001 lines 338-367: reset the quiz state and POST
/quiz with a 120s abort timer.  There is no materials check in this
handler; the Initialize Quiz button is disabled instead.  A 2xx response
stores the questions and starts the quiz; any failure sets an error. -/
def handleStartQuiz (s : State) (res : AbortableResult QuizResponse) :
    State × List Request :=
  let s1 := { s with
    quizLoading := true
    quizStarted := false
    quizFinished := false
    currentQuestionIdx := 0
    quizScore := 0 }
  match res with
  | .response st body =>
      if respOk st then
        ({ s1 with
            quizQuestions := body.questions
            quizStarted := true
            quizLoading := false }, [Request.quizPost none])
      else
        ({ s1 with
            error := "Failed to generate quiz. Try again."
            quizLoading := false }, [Request.quizPost none])
  | .aborted =>
      ({ s1 with
          error := "Connection error during quiz generation."
          quizLoading := false }, [Request.quizPost none])
  | .netError _ =>
      ({ s1 with
          error := "Connection error during quiz generation."
          quizLoading := false }, [Request.quizPost none])

/-- handleStartStudy, part_001 lines 380-411: guard on an empty library with
an error message; otherwise reset the study state and POST /study with a
120s abort timer; a 2xx response stores the flashcards. -/
def handleStartStudy (s : State) (res : AbortableResult FlashcardsResponse) :
    State × List Request :=
  if s.materials.isEmpty then
    ({ s with error := "Please upload materials to generate flashcards." }, [])
  else
    let s1 := { s with
      studyLoading := true
      flashcards := []
      currentCardIdx := 0
      isFlipped := false }
    match res with
    | .response st body =>
        if respOk st then
          ({ s1 with
              flashcards := body.flashcards
              studyLoading := false }, [Request.studyPost])
        else
          ({ s1 with
              error := "Failed to generate flashcards."
              studyLoading := false }, [Request.studyPost])
    | .aborted =>
        ({ s1 with
            error := "Connection error during study generation."
            studyLoading := false }, [Request.studyPost])
    | .netError _ =>
        ({ s1 with
            error := "Connection error during study generation."
            studyLoading := false }, [Request.studyPost])

end Part1

/-! Concrete states for the closed theorems below. -/

/-- A sample page.tsx state: one library entry, a pending question in the
input, an empty transcript, nothing in flight. -/
def pageEx : PageTsx.State :=
  { files := []
    uploading := false
    query := "What is X?"
    answer := ""
    loading := false
    conceptsLoading := false
    materials := [{ filename := "notes.pdf" }]
    concepts := []
    conceptLinks := []
    showGraph := false
    activeTab := PageTsx.Tab.research
    error := ""
    chatHistory := []
    isAnalysisMode := false
    quizLoading := false
    flashcardsLoading := false
    isDark := true
    itemCount := 5
    backendStatus := BackendStatus.online
    showSidebar := false }

/-- A sample part_001 state: one library entry, a pending question in the
input, an empty transcript, nothing in flight. -/
def part1Ex : Part1.State :=
  { files := []
    query := "What is X?"
    materials := [{ filename := "notes.pdf" }]
    chatHistory := []
    error := ""
    uploading := false
    loading := false
    concepts := []
    conceptLinks := []
    backendStatus := BackendStatus.online
    isDark := true
    activeTab := Part1.Tab.research
    quizQuestions := []
    currentQuestionIdx := 0
    quizScore := 0
    quizStarted := false
    quizFinished := false
    quizLoading := false
    flashcards := []
    studyLoading := false
    currentCardIdx := 0
    isFlipped := false }

/-- The sample page.tsx state while a query is in flight. -/
def pageLoadingEx : PageTsx.State := { pageEx with loading := true }

/-- The sample part_001 state while a query is in flight. -/
def part1LoadingEx : Part1.State := { part1Ex with loading := true }

/-- The sample part_001 state with an empty library. -/
def part1NoMatEx : Part1.State := { part1Ex with materials := [] }

/-- The sample page.tsx state with an empty library. -/
def pageNoMatEx : PageTsx.State := { pageEx with materials := [] }

/-- The sample page.tsx state with two files selected for upload. -/
def pageFilesEx : PageTsx.State :=
  { pageEx with files := [{ name := "a.pdf", size := 10 }, { name := "b.pdf", size := 20 }] }

/-- The sample part_001 state with two small files selected for upload. -/
def part1FilesEx : Part1.State :=
  { part1Ex with files := [{ name := "a.pdf", size := 10 }, { name := "b.pdf", size := 20 }] }

/-- The sample part_001 state with a single file just over the 100MB
limit. -/
def part1BigEx : Part1.State :=
  { part1Ex with files := [{ name := "big.pdf", size := 104857601 }] }

/-- C5: every run of the backend health check terminates in a status other
than checking, in both modelled revisions of checkBackend: a 2xx response
from GET / yields online, and a non-2xx response, a thrown network error, or
a client-side abort yields offline. -/
theorem checkBackend_never_stays_checking :
    (∀ res : AbortableResult Unit, PageTsx.checkBackend res ≠ BackendStatus.checking) ∧
    (∀ res : AbortableResult Unit, (Part1.checkBackend res).1 ≠ BackendStatus.checking) ∧
    (∀ st : Nat, respOk st = true →
      PageTsx.checkBackend (AbortableResult.response st ()) = BackendStatus.online ∧
      (Part1.checkBackend (AbortableResult.response st ())).1 = BackendStatus.online) ∧
    (∀ st : Nat, respOk st = false →
      PageTsx.checkBackend (AbortableResult.response st ()) = BackendStatus.offline ∧
      (Part1.checkBackend (AbortableResult.response st ())).1 = BackendStatus.offline) ∧
    (∀ msg : String,
      PageTsx.checkBackend (AbortableResult.netError msg) = BackendStatus.offline ∧
      (Part1.checkBackend (AbortableResult.netError msg)).1 = BackendStatus.offline) ∧
    (PageTsx.checkBackend AbortableResult.aborted = BackendStatus.offline ∧
      (Part1.checkBackend AbortableResult.aborted).1 = BackendStatus.offline) := by
  refine ⟨?_, ?_, ?_, ?_, ?_, ?_⟩
  · intro res
    cases res with
    | response st b =>
        simp only [PageTsx.checkBackend]
        split <;> simp
    | netError m => simp [PageTsx.checkBackend]
    | aborted => simp [PageTsx.checkBackend]
  · intro res
    cases res with
    | response st b =>
        simp only [Part1.checkBackend]
        split <;> simp
    | netError m => simp [Part1.checkBackend]
    | aborted => simp [Part1.checkBackend]
  · intro st h
    exact ⟨by simp [PageTsx.checkBackend, h], by simp [Part1.checkBackend, h]⟩
  · intro st h
    exact ⟨by simp [PageTsx.checkBackend, h], by simp [Part1.checkBackend, h]⟩
  · intro msg
    exact ⟨rfl, rfl⟩
  · exact ⟨rfl, rfl⟩

/-- C5 witness: the health-check theorem evaluated at a 200 and a 503
response. -/
theorem checkBackend_never_stays_checking_witness :
    respOk 200 = true ∧ respOk 503 = false ∧
    PageTsx.checkBackend (AbortableResult.response 200 ()) = BackendStatus.online ∧
    PageTsx.checkBackend (AbortableResult.response 503 ()) = BackendStatus.offline :=
  ⟨by decide, by decide,
   (checkBackend_never_stays_checking.2.2.1 200 (by decide)).1,
   (checkBackend_never_stays_checking.2.2.2.1 503 (by decide)).1⟩

/-- C10: the link-layer helper getPos agrees with the inline node layout at
every index, both equal the closed-form staggered-grid formula, a link whose
source or target term is absent from the concepts list renders no line, and
a link whose endpoints are both found renders the segment between the two
node positions. -/
theorem concept_layout_refinement :
    (∀ i : Nat, PageTsx.getPos i = PageTsx.nodePos i) ∧
    (∀ i : Nat, PageTsx.getPos i =
      (100 + (i % 2) * 220 + (if (i / 2) % 2 = 0 then 0 else 20), 80 + (i / 2) * 160)) ∧
    (∀ (cs : List Concept) (l : ConceptLink),
      cs.findIdx? (fun c => c.term == l.source) = none ∨
        cs.findIdx? (fun c => c.term == l.target) = none →
      PageTsx.renderLink cs l = none) ∧
    (∀ (cs : List Concept) (l : ConceptLink) (si ti : Nat),
      cs.findIdx? (fun c => c.term == l.source) = some si →
      cs.findIdx? (fun c => c.term == l.target) = some ti →
      PageTsx.renderLink cs l = some (PageTsx.nodePos si, PageTsx.nodePos ti)) := by
  refine ⟨fun i => rfl, ?_, ?_, ?_⟩
  · intro i
    simp only [PageTsx.getPos]
    by_cases h : i / 2 % 2 = 0
    · simp [h]
    · simp [h]
  · intro cs l h
    rcases h with h | h <;> simp [PageTsx.renderLink, h]
  · intro cs l si ti hs ht
    simp [PageTsx.renderLink, hs, ht]
    exact ⟨rfl, rfl⟩

/-- C10 witness: the layout theorem evaluated at index 3 and at a link with
an absent source term. -/
theorem concept_layout_refinement_witness :
    PageTsx.getPos 3 = (340, 240) ∧
    ([{ term := "A", definition := "d", importance := 5 }] : List Concept).findIdx?
        (fun c => c.term == ("B" : String)) = none ∧
    PageTsx.renderLink [{ term := "A", definition := "d", importance := 5 }]
        { source := "B", target := "A", relationship := "rel" } = none :=
  ⟨by decide, by decide,
   concept_layout_refinement.2.2.1 _ _ (Or.inl (by decide))⟩

/-- C9: in the batch revisions, a selection whose total size exceeds the
100MB limit makes handleUpload fail locally: no request is issued, the
error is the limit message, and the selected files and materials lists are
unchanged; by contrast a successful in-limit upload clears the selection. -/
theorem upload_oversize_rejected
    (s : Part1.State) (uploadRes : FetchResult ErrorBody)
    (matRes : FetchResult (List Material)) (conRes : FetchResult ConceptsResponse)
    (hbig : totalSize s.files > 100 * 1024 * 1024) :
    (Part1.handleUpload s uploadRes matRes conRes).2 = [] ∧
    (Part1.handleUpload s uploadRes matRes conRes).1.error
      = "Total file size exceeds 100MB limit" ∧
    (Part1.handleUpload s uploadRes matRes conRes).1.files = s.files ∧
    (Part1.handleUpload s uploadRes matRes conRes).1.materials = s.materials ∧
    (∀ (s2 : Part1.State) (st : Nat) (body : ErrorBody),
      s2.files ≠ [] → totalSize s2.files ≤ 100 * 1024 * 1024 → respOk st = true →
      (Part1.handleUpload s2 (FetchResult.response st body) matRes conRes).1.files = []) := by
  have hne : s.files.isEmpty = false := by
    cases hf : s.files with
    | nil => rw [hf] at hbig; simp [totalSize] at hbig
    | cons a l => simp [hf]
  have hgt : (totalSize s.files > 100 * 1024 * 1024) = True := by simp [hbig]
  refine ⟨?_, ?_, ?_, ?_, ?_⟩
  · simp [Part1.handleUpload, hne, hbig]
  · simp [Part1.handleUpload, hne, hbig]
  · simp [Part1.handleUpload, hne, hbig]
  · simp [Part1.handleUpload, hne, hbig]
  · intro s2 st body h2ne h2sz hok
    have h2ne' : s2.files.isEmpty = false := by
      cases hf : s2.files with
      | nil => exact absurd hf h2ne
      | cons a l => simp [hf]
    have h2 : ¬ totalSize s2.files > 100 * 1024 * 1024 := by omega
    simp only [Part1.handleUpload, h2ne', Bool.false_eq_true, if_false, if_neg h2, hok,
      if_true]
    cases matRes with
    | response st2 b2 =>
        cases conRes with
        | response st3 b3 =>
            simp [Part1.fetchMaterials, Part1.fetchConcepts]
            split <;> split <;> simp
        | netError m3 =>
            simp [Part1.fetchMaterials, Part1.fetchConcepts]
            split <;> simp
    | netError m2 =>
        cases conRes with
        | response st3 b3 =>
            simp [Part1.fetchMaterials, Part1.fetchConcepts]
            split <;> simp
        | netError m3 => simp [Part1.fetchMaterials, Part1.fetchConcepts]

/-- C9 witness: the oversize theorem evaluated at a single 100MB+1 file. -/
theorem upload_oversize_rejected_witness :
    totalSize part1BigEx.files > 100 * 1024 * 1024 ∧
    (Part1.handleUpload part1BigEx (FetchResult.response 200 { detail := none })
        (FetchResult.response 200 []) (FetchResult.response 200 { concepts := [], links := [] })).2
      = [] ∧
    (Part1.handleUpload part1BigEx (FetchResult.response 200 { detail := none })
        (FetchResult.response 200 []) (FetchResult.response 200 { concepts := [], links := [] })).1.error
      = "Total file size exceeds 100MB limit" :=
  ⟨by decide,
   (upload_oversize_rejected part1BigEx _ _ _ (by decide)).1,
   (upload_oversize_rejected part1BigEx _ _ _ (by decide)).2.1⟩

/-- C7: a successful query round-trip (non-empty query, 2xx response)
appends to the transcript exactly a user entry carrying the submitted query
followed by an assistant entry carrying the response answer field, in both
modelled revisions. -/
theorem query_roundtrip_appends_two
    (s1 : Part1.State) (st1 : Nat) (body1 : QueryResponse)
    (health : AbortableResult Unit)
    (hq1 : jsTrim s1.query ≠ "") (hl1 : s1.loading = false) (hok1 : respOk st1 = true)
    (s2 : PageTsx.State) (st2 : Nat) (body2 : QueryResponse)
    (hq2 : s2.query ≠ "") (hok2 : respOk st2 = true) :
    (Part1.handleQuery s1 (AbortableResult.response st1 body1) health).1.chatHistory
      = s1.chatHistory ++ [mkUser s1.query, mkAssistant0 body1.answer] ∧
    (PageTsx.handleQuery s2 none (FetchResult.response st2 body2)).1.chatHistory
      = s2.chatHistory ++ [mkUser s2.query,
          { role := Role.assistant, content := body2.answer, sources := body2.sources }] := by
  constructor
  · simp [Part1.handleQuery, hq1, hl1, hok1]
  · simp [PageTsx.handleQuery, PageTsx.handleQueryPre, jsOr, hq2, hok2]

/-- C7 witness: the round-trip theorem evaluated at the sample states and a
200 response. -/
theorem query_roundtrip_appends_two_witness :
    jsTrim part1Ex.query ≠ "" ∧ part1Ex.loading = false ∧ respOk 200 = true ∧
    pageEx.query ≠ "" ∧
    (Part1.handleQuery part1Ex (AbortableResult.response 200 { answer := "X is Y." })
        AbortableResult.aborted).1.chatHistory
      = part1Ex.chatHistory ++ [mkUser part1Ex.query, mkAssistant0 "X is Y."] ∧
    (PageTsx.handleQuery pageEx none (FetchResult.response 200 { answer := "X is Y." })).1.chatHistory
      = pageEx.chatHistory ++ [mkUser pageEx.query,
          { role := Role.assistant, content := "X is Y.", sources := [] }] := by
  have h := query_roundtrip_appends_two part1Ex 200 { answer := "X is Y." }
    (AbortableResult.aborted) (by decide) (by decide) (by decide)
    pageEx 200 { answer := "X is Y." } (by decide) (by decide)
  exact ⟨by decide, by decide, by decide, by decide, h.1, h.2⟩

/-- C1 counterexample: in the page.tsx revision, deleting the only material
with a 2xx response does issue further network requests - a /materials
re-fetch and (because the closure still sees the old non-empty list) a
/concepts POST - and the local concepts list is not cleared by the handler
itself. -/
theorem deleteMaterial_page_refetch_counterexample :
    pageEx.materials = [{ filename := "notes.pdf" }] ∧
    (PageTsx.deleteMaterial pageEx "notes.pdf" (FetchResult.response 200 { detail := none })
        (FetchResult.response 200 []) (FetchResult.response 200 { concepts := [], links := [] })).2
      = [Request.materialDelete "notes.pdf", Request.materialsGet, Request.conceptsPost] := by
  exact ⟨rfl, by decide⟩

/-- C1 (amended): in the part_000/part_001 revisions, deleting the last
remaining material with a 2xx response empties the local materials,
concepts, and conceptLinks lists and issues no request beyond the DELETE
itself; the page.tsx revision instead re-fetches. -/
theorem deleteMaterial_last_clears_locally
    (s : Part1.State) (f : String) (st : Nat) (body : ErrorBody)
    (conRes : FetchResult ConceptsResponse)
    (hm : s.materials = [{ filename := f }]) (hok : respOk st = true) :
    (Part1.deleteMaterial s f (FetchResult.response st body) conRes).1.materials = [] ∧
    (Part1.deleteMaterial s f (FetchResult.response st body) conRes).1.concepts = [] ∧
    (Part1.deleteMaterial s f (FetchResult.response st body) conRes).1.conceptLinks = [] ∧
    (Part1.deleteMaterial s f (FetchResult.response st body) conRes).2
      = [Request.materialDelete f] := by
  refine ⟨?_, ?_, ?_, ?_⟩ <;>
    simp [Part1.deleteMaterial, hm, hok, List.filter]

/-- C1 witness: the amended delete theorem evaluated at the sample state
whose library holds exactly notes.pdf. -/
theorem deleteMaterial_last_clears_locally_witness :
    part1Ex.materials = [{ filename := "notes.pdf" }] ∧ respOk 200 = true ∧
    (Part1.deleteMaterial part1Ex "notes.pdf" (FetchResult.response 200 { detail := none })
        (FetchResult.response 200 { concepts := [], links := [] })).2
      = [Request.materialDelete "notes.pdf"] :=
  ⟨rfl, by decide,
   (deleteMaterial_last_clears_locally part1Ex "notes.pdf" 200 { detail := none }
      (FetchResult.response 200 { concepts := [], links := [] }) rfl (by decide)).2.2.2⟩

/-- C2 counterexample: in the page.tsx revision, a programmatic handleQuery
call with an override query while the query loading flag is true does issue
a POST /query and does extend the transcript - only the submit button is
guarded in that revision. -/
theorem handleQuery_override_bypasses_loading :
    pageLoadingEx.loading = true ∧
    (PageTsx.handleQuery pageLoadingEx
        (some "Explain Entropy in the context of these materials.")
        (FetchResult.response 200 { answer := "ok" })).2
      = [Request.queryPost "Explain Entropy in the context of these materials."] ∧
    (PageTsx.handleQuery pageLoadingEx
        (some "Explain Entropy in the context of these materials.")
        (FetchResult.response 200 { answer := "ok" })).1.chatHistory
      ≠ pageLoadingEx.chatHistory := by
  exact ⟨rfl, by decide, by decide⟩

/-- C2 (amended): in the part_000/part_001 revisions, any handleQuery
invocation while loading is true returns with no request and an unchanged
state; in the page.tsx revision only form submission is de-duplicated,
through the submit button being disabled whenever loading is true. -/
theorem handleQuery_loading_guard
    (s : Part1.State) (res : AbortableResult QueryResponse)
    (health : AbortableResult Unit) (hl : s.loading = true) :
    Part1.handleQuery s res health = (s, []) ∧
    (∀ p : PageTsx.State, p.loading = true → PageTsx.queryButtonDisabled p = true) := by
  constructor
  · simp [Part1.handleQuery, hl]
  · intro p hp
    simp [PageTsx.queryButtonDisabled, hp]

/-- C2 witness: the loading-guard theorem evaluated at the sample in-flight
state. -/
theorem handleQuery_loading_guard_witness :
    part1LoadingEx.loading = true ∧
    Part1.handleQuery part1LoadingEx
        (AbortableResult.response 200 { answer := "late" }) AbortableResult.aborted
      = (part1LoadingEx, []) :=
  ⟨rfl,
   (handleQuery_loading_guard part1LoadingEx
      (AbortableResult.response 200 { answer := "late" }) AbortableResult.aborted rfl).1⟩

/-- C4 counterexample: part_001 handleStartQuiz performs no materials check:
invoked on an empty library it still issues a POST /quiz. -/
theorem startQuiz_no_materials_guard :
    part1NoMatEx.materials = [] ∧
    (Part1.handleStartQuiz part1NoMatEx (AbortableResult.response 200 { questions := [] })).2
      = [Request.quizPost none] := by
  exact ⟨rfl, by decide⟩

/-- C4 (amended): with an empty materials list, the analyze and flashcards
actions short-circuit before any network request in both modelled
revisions, and the page.tsx quiz action does too; the part_001 quiz action
performs no materials check in the handler (its trigger button is disabled
instead). -/
theorem empty_materials_short_circuit
    (p : PageTsx.State) (hp : p.materials = [])
    (ra : FetchResult AnalyzeResponse) (rq : FetchResult QuizResponse)
    (rf : FetchResult FlashcardsResponse)
    (s : Part1.State) (hs : s.materials = [])
    (ra1 : AbortableResult AnalyzeResponse) (con : FetchResult ConceptsResponse)
    (health : AbortableResult Unit) (rs1 : AbortableResult FlashcardsResponse) :
    PageTsx.handleAnalyze p ra = (p, []) ∧
    PageTsx.handleGenerateQuiz p rq = (p, []) ∧
    PageTsx.handleGenerateFlashcards p rf = (p, []) ∧
    Part1.handleAnalyze s ra1 con health
      = ({ s with error := "Please upload materials to analyze." }, []) ∧
    Part1.handleStartStudy s rs1
      = ({ s with error := "Please upload materials to generate flashcards." }, []) ∧
    Part1.quizInitDisabled s = true := by
  refine ⟨?_, ?_, ?_, ?_, ?_, ?_⟩
  · simp [PageTsx.handleAnalyze, hp]
  · simp [PageTsx.handleGenerateQuiz, hp]
  · simp [PageTsx.handleGenerateFlashcards, hp]
  · simp [Part1.handleAnalyze, hs]
  · simp [Part1.handleStartStudy, hs]
  · simp [Part1.quizInitDisabled, hs]

/-- C4 witness: the short-circuit theorem evaluated at the sample
empty-library states. -/
theorem empty_materials_short_circuit_witness :
    pageNoMatEx.materials = [] ∧ part1NoMatEx.materials = [] ∧
    PageTsx.handleAnalyze pageNoMatEx (FetchResult.response 200 { analysis := "a" })
      = (pageNoMatEx, []) ∧
    Part1.handleStartStudy part1NoMatEx (AbortableResult.response 200 { flashcards := [] })
      = ({ part1NoMatEx with error := "Please upload materials to generate flashcards." }, []) := by
  have h := empty_materials_short_circuit pageNoMatEx rfl
    (FetchResult.response 200 { analysis := "a" })
    (FetchResult.response 200 { questions := [] })
    (FetchResult.response 200 { flashcards := [] })
    part1NoMatEx rfl
    (AbortableResult.response 200 { analysis := "a" })
    (FetchResult.response 200 { concepts := [], links := [] })
    AbortableResult.aborted
    (AbortableResult.response 200 { flashcards := [] })
  exact ⟨rfl, rfl, h.1, h.2.2.2.2.1⟩

/-- C3 counterexample: in the page.tsx revision a fully successful upload
run leaves the transcript untouched - handleUpload appends no user entry at
all - and starting an analyze run sets the shared `loading` flag, which
disables the query submit button, so the analyze flag is not dedicated to
its feature. -/
theorem upload_appends_no_user_entry :
    pageFilesEx.chatHistory = [] ∧
    (PageTsx.handleUpload pageFilesEx (fun _ => FetchResult.response 200 { detail := none })
        (FetchResult.response 200 []) (FetchResult.response 200 { concepts := [], links := [] })).1.chatHistory
      = [] ∧
    (PageTsx.handleAnalyzePre pageEx).loading = true ∧
    (PageTsx.handleQueryPre pageEx "q").loading = true ∧
    PageTsx.queryButtonDisabled (PageTsx.handleAnalyzePre pageEx) = true := by
  exact ⟨rfl, by decide, rfl, rfl, by decide⟩

/-- C3 (amended): in the page.tsx revision the query, analyze, quiz, and
flashcards actions each append exactly one user transcript entry and raise
their loading flag before the network call is awaited, with the trigger
button disabled in the resulting state; the upload action raises its
uploading flag and disables its button but appends no transcript entry;
quiz, flashcards, and upload use flags of their own while analyze raises
the same `loading` flag the query feature uses. -/
theorem actions_pre_await_transcript (s : PageTsx.State) (q : String) :
    ((PageTsx.handleQueryPre s q).chatHistory = s.chatHistory ++ [mkUser q] ∧
     (PageTsx.handleQueryPre s q).loading = true ∧
     PageTsx.queryButtonDisabled (PageTsx.handleQueryPre s q) = true) ∧
    ((PageTsx.handleAnalyzePre s).chatHistory
        = s.chatHistory ++ [mkUser "Analyze connections across all my materials."] ∧
     (PageTsx.handleAnalyzePre s).loading = true ∧
     PageTsx.analyzeButtonDisabled (PageTsx.handleAnalyzePre s) = true) ∧
    ((PageTsx.handleGenerateQuizPre s).chatHistory
        = s.chatHistory ++ [mkUser "Generate a practice quiz for me."] ∧
     (PageTsx.handleGenerateQuizPre s).quizLoading = true ∧
     PageTsx.quizButtonDisabled (PageTsx.handleGenerateQuizPre s) = true) ∧
    ((PageTsx.handleGenerateFlashcardsPre s).chatHistory
        = s.chatHistory ++ [mkUser "Generate study flashcards."] ∧
     (PageTsx.handleGenerateFlashcardsPre s).flashcardsLoading = true ∧
     PageTsx.flashcardsButtonDisabled (PageTsx.handleGenerateFlashcardsPre s) = true) ∧
    ((PageTsx.handleUploadPre s).chatHistory = s.chatHistory ∧
     (PageTsx.handleUploadPre s).uploading = true ∧
     PageTsx.uploadButtonDisabled (PageTsx.handleUploadPre s) = true) := by
  refine ⟨⟨rfl, rfl, ?_⟩, ⟨rfl, rfl, ?_⟩, ⟨rfl, rfl, ?_⟩, ⟨rfl, rfl, ?_⟩, ⟨rfl, rfl, ?_⟩⟩
  · simp [PageTsx.queryButtonDisabled, PageTsx.handleQueryPre]
  · simp [PageTsx.analyzeButtonDisabled, PageTsx.handleAnalyzePre]
  · simp [PageTsx.quizButtonDisabled, PageTsx.handleGenerateQuizPre]
  · simp [PageTsx.flashcardsButtonDisabled, PageTsx.handleGenerateFlashcardsPre]
  · simp [PageTsx.uploadButtonDisabled, PageTsx.handleUploadPre]

/-- The sample page.tsx state with one message already in the transcript. -/
def pageChatEx : PageTsx.State := { pageEx with chatHistory := [mkUser "hi"] }

/-- A one-entry transcript holding a rendered quiz, for the quiz option
onClick counterexample. -/
def quizHistEx : List ChatMessage :=
  [{ role := Role.assistant
     content := "I\x27ve generated a practice quiz based on your materials. Good luck!"
     quiz := [{ question := "q", options := ["A", "B"], correct_answer := "A",
                explanation := "e" }] }]

/-- C8 counterexample: the page.tsx clearMaterials resets the transcript to
empty, so the prior transcript is not a prefix of the new one; and the quiz
option onClick keeps the transcript length but modifies an existing entry
in place. -/
theorem clearMaterials_resets_transcript :
    pageChatEx.chatHistory = [mkUser "hi"] ∧
    (¬ ∃ t, (PageTsx.clearMaterials pageChatEx
        (FetchResult.response 200 { detail := none })).1.chatHistory
          = pageChatEx.chatHistory ++ t) ∧
    (PageTsx.quizOptionClick quizHistEx 0 0 "B").length = quizHistEx.length ∧
    PageTsx.quizOptionClick quizHistEx 0 0 "B" ≠ quizHistEx := by
  refine ⟨rfl, ?_, by decide, by decide⟩
  rintro ⟨t, ht⟩
  simp [PageTsx.clearMaterials, pageChatEx] at ht

/-- A list extends itself by the empty tail. -/
theorem listExtendsRefl {α : Type} (l : List α) : ∃ t, l = l ++ t := ⟨[], by simp⟩

/-- A single append is an extension. -/
theorem listExtendsOne {α : Type} (l a : List α) : ∃ t, l ++ a = l ++ t := ⟨a, rfl⟩

/-- Two successive appends are an extension. -/
theorem listExtendsTwo {α : Type} (l a b : List α) : ∃ t, l ++ a ++ b = l ++ t :=
  ⟨a ++ b, List.append_assoc l a b⟩

/-- C8 (amended): every other modelled operation only extends the chat
transcript - the transcript before the operation is a prefix of the
transcript after it - in both revisions; the exceptions are the page.tsx
clearMaterials (which resets it) and the page.tsx quiz option onClick
(which edits an entry in place). -/
theorem transcript_append_only_amended :
    (∀ (s : PageTsx.State) (o : Option String) (r : FetchResult QueryResponse),
      ∃ t, (PageTsx.handleQuery s o r).1.chatHistory = s.chatHistory ++ t) ∧
    (∀ (s : PageTsx.State) (r : FetchResult AnalyzeResponse),
      ∃ t, (PageTsx.handleAnalyze s r).1.chatHistory = s.chatHistory ++ t) ∧
    (∀ (s : PageTsx.State) (r : FetchResult QuizResponse),
      ∃ t, (PageTsx.handleGenerateQuiz s r).1.chatHistory = s.chatHistory ++ t) ∧
    (∀ (s : PageTsx.State) (r : FetchResult FlashcardsResponse),
      ∃ t, (PageTsx.handleGenerateFlashcards s r).1.chatHistory = s.chatHistory ++ t) ∧
    (∀ (s : PageTsx.State) (results : Nat → FetchResult ErrorBody)
        (m : FetchResult (List Material)) (c : FetchResult ConceptsResponse),
      ∃ t, (PageTsx.handleUpload s results m c).1.chatHistory = s.chatHistory ++ t) ∧
    (∀ (s : PageTsx.State) (f : String) (r : FetchResult ErrorBody)
        (m : FetchResult (List Material)) (c : FetchResult ConceptsResponse),
      ∃ t, (PageTsx.deleteMaterial s f r m c).1.chatHistory = s.chatHistory ++ t) ∧
    (∀ (s : PageTsx.State) (seen : List Material) (r : FetchResult ConceptsResponse),
      ∃ t, (PageTsx.fetchConcepts s seen r).1.chatHistory = s.chatHistory ++ t) ∧
    (∀ (s : PageTsx.State) (r : FetchResult (List Material)),
      ∃ t, (PageTsx.fetchMaterials s r).1.chatHistory = s.chatHistory ++ t) ∧
    (∀ (s : Part1.State) (r : AbortableResult QueryResponse) (h : AbortableResult Unit),
      ∃ t, (Part1.handleQuery s r h).1.chatHistory = s.chatHistory ++ t) ∧
    (∀ (s : Part1.State) (r : AbortableResult AnalyzeResponse)
        (c : FetchResult ConceptsResponse) (h : AbortableResult Unit),
      ∃ t, (Part1.handleAnalyze s r c h).1.chatHistory = s.chatHistory ++ t) ∧
    (∀ (s : Part1.State) (r : AbortableResult Part1.QuizResponse),
      ∃ t, (Part1.handleStartQuiz s r).1.chatHistory = s.chatHistory ++ t) ∧
    (∀ (s : Part1.State) (r : AbortableResult FlashcardsResponse),
      ∃ t, (Part1.handleStartStudy s r).1.chatHistory = s.chatHistory ++ t) ∧
    (∀ (s : Part1.State) (r : FetchResult ErrorBody),
      ∃ t, (Part1.clearMaterials s r).1.chatHistory = s.chatHistory ++ t) ∧
    (∀ (s : Part1.State) (f : String) (r : FetchResult ErrorBody)
        (c : FetchResult ConceptsResponse),
      ∃ t, (Part1.deleteMaterial s f r c).1.chatHistory = s.chatHistory ++ t) ∧
    (∀ (s : Part1.State) (u : FetchResult ErrorBody)
        (m : FetchResult (List Material)) (c : FetchResult ConceptsResponse),
      ∃ t, (Part1.handleUpload s u m c).1.chatHistory = s.chatHistory ++ t) := by
  refine ⟨?_, ?_, ?_, ?_, ?_, ?_, ?_, ?_, ?_, ?_, ?_, ?_, ?_, ?_, ?_⟩ <;>
    intros <;>
    simp only [PageTsx.handleQuery, PageTsx.handleQueryPre, PageTsx.handleAnalyze,
      PageTsx.handleAnalyzePre, PageTsx.handleGenerateQuiz, PageTsx.handleGenerateQuizPre,
      PageTsx.handleGenerateFlashcards, PageTsx.handleGenerateFlashcardsPre,
      PageTsx.handleUpload, PageTsx.handleUploadPre, PageTsx.deleteMaterial,
      PageTsx.fetchConcepts, PageTsx.fetchMaterials,
      Part1.handleQuery, Part1.handleAnalyze, Part1.handleStartQuiz, Part1.handleStartStudy,
      Part1.clearMaterials, Part1.deleteMaterial, Part1.handleUpload,
      Part1.fetchConcepts, Part1.fetchMaterials, Part1.runCheckBackend] <;>
    repeat' split
  all_goals
    first
      | exact listExtendsRefl _
      | exact listExtendsOne _ _
      | exact listExtendsTwo _ _ _

/-- Whether a per-file loop outcome is a 2xx response. -/
def isOkResult (r : FetchResult ErrorBody) : Bool :=
  match r with
  | .response st _ => respOk st
  | .netError _ => false

/-- The multipart payloads of the POST /upload requests in a request list,
in order. -/
def uploadRequests (l : List Request) : List (List String) :=
  match l with
  | [] => []
  | r :: rest =>
    match r with
    | Request.uploadPost names => names :: uploadRequests rest
    | _ => uploadRequests rest

/-- uploadRequests distributes over append. -/
theorem uploadRequests_append (a b : List Request) :
    uploadRequests (a ++ b) = uploadRequests a ++ uploadRequests b := by
  induction a with
  | nil => simp [uploadRequests]
  | cons r rest ih => cases r <;> simp [uploadRequests, ih]

/-- uploadRequests of a list of single-file posts recovers the singleton
payloads. -/
theorem uploadRequests_map_single (fs : List FileMeta) :
    uploadRequests (fs.map (fun f => Request.uploadPost [f.name]))
      = fs.map (fun f => [f.name]) := by
  induction fs with
  | nil => rfl
  | cons f rest ih => simp [uploadRequests, ih]

/-- The page.tsx materials re-fetch issues no upload request. -/
theorem uploadRequests_fetchMaterials (s : PageTsx.State)
    (r : FetchResult (List Material)) :
    uploadRequests (PageTsx.fetchMaterials s r).2 = [] := by
  cases r <;> simp [PageTsx.fetchMaterials, uploadRequests]

/-- The page.tsx concepts re-fetch issues no upload request. -/
theorem uploadRequests_fetchConcepts (s : PageTsx.State) (seen : List Material)
    (r : FetchResult ConceptsResponse) :
    uploadRequests (PageTsx.fetchConcepts s seen r).2 = [] := by
  simp only [PageTsx.fetchConcepts]
  repeat' split
  all_goals simp [uploadRequests]

/-- The part_001 materials re-fetch issues no upload request. -/
theorem uploadRequests_part1FetchMaterials (s : Part1.State)
    (r : FetchResult (List Material)) :
    uploadRequests (Part1.fetchMaterials s r).2 = [] := by
  cases r <;> simp [Part1.fetchMaterials, uploadRequests]

/-- The part_001 concepts re-fetch issues no upload request. -/
theorem uploadRequests_part1FetchConcepts (s : Part1.State) (force : Bool)
    (r : FetchResult ConceptsResponse) :
    uploadRequests (Part1.fetchConcepts s force r).2 = [] := by
  simp only [Part1.fetchConcepts]
  repeat' split
  all_goals simp [uploadRequests]

/-- When every outcome from index i on is a 2xx response, the page.tsx
upload loop issues one single-file request per file and throws nothing. -/
theorem uploadLoop_ok (results : Nat → FetchResult ErrorBody) :
    ∀ (fs : List FileMeta) (i : Nat),
      (∀ j, j < fs.length → isOkResult (results (i + j)) = true) →
      PageTsx.uploadLoop results i fs
        = (fs.map (fun f => Request.uploadPost [f.name]), none) := by
  intro fs
  induction fs with
  | nil => intro i _; rfl
  | cons f rest ih =>
      intro i h
      have h0 : isOkResult (results i) = true := by
        have hx := h 0 (by simp)
        simpa using hx
      cases hr : results i with
      | response st body =>
          have hok : respOk st = true := by
            rw [hr] at h0
            simpa [isOkResult] using h0
          have hrest : PageTsx.uploadLoop results (i + 1) rest
              = (rest.map (fun f => Request.uploadPost [f.name]), none) := by
            refine ih (i + 1) ?_
            intro j hj
            have hx := h (j + 1) (by simp; omega)
            have heq : i + (j + 1) = i + 1 + j := by omega
            rwa [heq] at hx
          simp [PageTsx.uploadLoop, hr, hok, hrest]
      | netError m =>
          rw [hr] at h0
          simp [isOkResult] at h0

/-- When the outcomes before index k are 2xx and outcome k is a non-2xx
response, the page.tsx upload loop issues exactly the first k+1 single-file
requests and throws the detail of the failing response (or a per-file
fallback). -/
theorem uploadLoop_fail (results : Nat → FetchResult ErrorBody) :
    ∀ (fs : List FileMeta) (k i st : Nat) (body : ErrorBody),
      k < fs.length →
      (∀ j, j < k → isOkResult (results (i + j)) = true) →
      results (i + k) = FetchResult.response st body →
      respOk st = false →
      ∃ m, PageTsx.uploadLoop results i fs
          = ((fs.take (k + 1)).map (fun f => Request.uploadPost [f.name]), some m) ∧
        (∀ d, body.detail = some d → d ≠ "" → m = d) := by
  intro fs
  induction fs with
  | nil =>
      intro k i st body hk
      simp at hk
  | cons f rest ih =>
      intro k i st body hk hpre hres hfail
      cases k with
      | zero =>
          rw [Nat.add_zero] at hres
          refine ⟨jsOr body.detail ("Upload failed for " ++ f.name), ?_, ?_⟩
          · simp [PageTsx.uploadLoop, hres, hfail]
          · intro d hd hdne
            simp [hd, jsOr, jsStr, hdne]
      | succ k0 =>
          have hk' : k0 < rest.length := by
            simp at hk
            omega
          have h0 : isOkResult (results i) = true := by
            have hx := hpre 0 (Nat.succ_pos k0)
            simpa using hx
          cases hr : results i with
          | response st0 b0 =>
              have hok : respOk st0 = true := by
                rw [hr] at h0
                simpa [isOkResult] using h0
              have hres' : results (i + 1 + k0) = FetchResult.response st body := by
                have heq : i + (k0 + 1) = i + 1 + k0 := by omega
                rwa [heq] at hres
              have hpre' : ∀ j, j < k0 → isOkResult (results (i + 1 + j)) = true := by
                intro j hj
                have hx := hpre (j + 1) (Nat.succ_lt_succ hj)
                have heq : i + (j + 1) = i + 1 + j := by omega
                rwa [heq] at hx
              obtain ⟨m, hm1, hm2⟩ := ih k0 (i + 1) st body hk' hpre' hres' hfail
              refine ⟨m, ?_, hm2⟩
              simp [PageTsx.uploadLoop, hr, hok, hm1]
          | netError m0 =>
              rw [hr] at h0
              simp [isOkResult] at h0

/-- C6 counterexample: in the batch revisions a one-file selection whose
size exceeds the 100MB limit issues zero POST /upload requests, neither one
multipart request nor N sequential ones. -/
theorem upload_oversize_no_request_counterexample :
    part1BigEx.files.length = 1 ∧
    (Part1.handleUpload part1BigEx (FetchResult.response 200 { detail := none })
        (FetchResult.response 200 []) (FetchResult.response 200 { concepts := [], links := [] })).2
      = [] := by
  exact ⟨rfl, by decide⟩

/-- C6 (amended): for a non-empty selection within the batch 100MB limit,
the batch revisions issue exactly one multipart POST /upload containing all
selected files, surfacing a failing response detail verbatim; the page.tsx
revision issues sequential single-file POST /upload requests - all N on
success, and exactly the first k+1 when file k is the first to fail, with
the remaining files abandoned, nothing retried or rolled back, and the
failing detail surfaced inside the connection-error banner. -/
theorem upload_request_shapes
    (s : Part1.State) (uploadRes : FetchResult ErrorBody)
    (matRes : FetchResult (List Material)) (conRes : FetchResult ConceptsResponse)
    (hne : s.files ≠ []) (hsz : totalSize s.files ≤ 100 * 1024 * 1024)
    (p : PageTsx.State) (results : Nat → FetchResult ErrorBody)
    (pmat : FetchResult (List Material)) (pcon : FetchResult ConceptsResponse)
    (hpne : p.files ≠ []) :
    uploadRequests (Part1.handleUpload s uploadRes matRes conRes).2
      = [s.files.map FileMeta.name] ∧
    (∀ (st : Nat) (body : ErrorBody),
      uploadRes = FetchResult.response st body → respOk st = false →
      (Part1.handleUpload s uploadRes matRes conRes).1.error
        = jsOr body.detail "Upload failed") ∧
    ((∀ j, j < p.files.length → isOkResult (results j) = true) →
      uploadRequests (PageTsx.handleUpload p results pmat pcon).2
        = p.files.map (fun f => [f.name])) ∧
    (∀ (k st : Nat) (body : ErrorBody),
      k < p.files.length →
      (∀ j, j < k → isOkResult (results j) = true) →
      results k = FetchResult.response st body → respOk st = false →
      (PageTsx.handleUpload p results pmat pcon).2
        = (p.files.take (k + 1)).map (fun f => Request.uploadPost [f.name]) ∧
      (∀ d, body.detail = some d → d ≠ "" →
        (PageTsx.handleUpload p results pmat pcon).1.error
          = "Connection Error: " ++ d ++
            ". If you just pushed, the server might still be waking up (can take 60s).")) := by
  have hne' : s.files.isEmpty = false := by
    cases hf : s.files with
    | nil => exact absurd hf hne
    | cons a l => simp [hf]
  have hpne' : p.files.isEmpty = false := by
    cases hf : p.files with
    | nil => exact absurd hf hpne
    | cons a l => simp [hf]
  have hsz' : ¬ totalSize s.files > 100 * 1024 * 1024 := by omega
  refine ⟨?_, ?_, ?_, ?_⟩
  · simp only [Part1.handleUpload, hne', Bool.false_eq_true, if_false, if_neg hsz']
    cases uploadRes with
    | response st body =>
        by_cases hok : respOk st = true
        · simp [hok, uploadRequests, uploadRequests_append,
            uploadRequests_part1FetchMaterials, uploadRequests_part1FetchConcepts]
        · simp [hok, uploadRequests]
    | netError m => simp [uploadRequests]
  · intro st body hres hfail
    subst hres
    simp [Part1.handleUpload, hne', if_neg hsz', hfail]
  · intro hall
    have hloop := uploadLoop_ok results p.files 0 (by
      intro j hj
      simpa using hall j hj)
    simp [PageTsx.handleUpload, PageTsx.handleUploadPre, hpne', hloop, uploadRequests,
      uploadRequests_append, uploadRequests_map_single, uploadRequests_fetchMaterials,
      uploadRequests_fetchConcepts]
  · intro k st body hk hpre hres hfail
    obtain ⟨m, hm1, hm2⟩ := uploadLoop_fail results p.files k 0 st body hk
      (by
        intro j hj
        simpa using hpre j hj)
      (by simpa using hres) hfail
    constructor
    · simp [PageTsx.handleUpload, PageTsx.handleUploadPre, hpne', hm1]
    · intro d hd hdne
      have hmd : m = d := hm2 d hd hdne
      subst hmd
      simp [PageTsx.handleUpload, PageTsx.handleUploadPre, hpne', hm1, jsStr, hdne]

/-- C6 witness: the request-shape theorem evaluated at a two-file selection
with all-2xx outcomes, in both revisions. -/
theorem upload_request_shapes_witness :
    part1FilesEx.files ≠ [] ∧ totalSize part1FilesEx.files ≤ 100 * 1024 * 1024 ∧
    pageFilesEx.files ≠ [] ∧
    uploadRequests (Part1.handleUpload part1FilesEx (FetchResult.response 200 { detail := none })
        (FetchResult.response 200 []) (FetchResult.response 200 { concepts := [], links := [] })).2
      = [["a.pdf", "b.pdf"]] ∧
    uploadRequests (PageTsx.handleUpload pageFilesEx
        (fun _ => FetchResult.response 200 { detail := none })
        (FetchResult.response 200 []) (FetchResult.response 200 { concepts := [], links := [] })).2
      = [["a.pdf"], ["b.pdf"]] := by
  have h := upload_request_shapes part1FilesEx (FetchResult.response 200 { detail := none })
    (FetchResult.response 200 []) (FetchResult.response 200 { concepts := [], links := [] })
    (by decide) (by decide)
    pageFilesEx (fun _ => FetchResult.response 200 { detail := none })
    (FetchResult.response 200 []) (FetchResult.response 200 { concepts := [], links := [] })
    (by decide)
  refine ⟨by decide, by decide, by decide, ?_, ?_⟩
  · exact h.1.trans (by decide)
  · exact (h.2.2.1 (fun j _ => rfl)).trans (by decide)

end ScholarSync
